import Mathlib

/-!
Shallow embedding of the proxy-tunneling bootstrap of
`secure-file-transfer-client` (`src/sftp-client.ts`, class `SFTPClient`):
the HTTP CONNECT request builder, the buffered CONNECT-response header
reader, the status-line check, the proxy dispatcher inside `connect`, the
session-payload merge, and the `disconnect` cleanup.

Conventions of the embedding:
* byte streams are modelled as `List Char` (all protocol bytes involved are
  ASCII; `Buffer.concat` / `indexOf` / `subarray` become list operations);
* JavaScript truthiness on optional strings (`proxy.username &&
  proxy.password`) is `truthyStr` (`undefined` and `''` are falsy); on the
  optional numeric `opt.port` the value `0` is falsy;
* JS whitespace (`\s`) is modelled by its ASCII part, and
  `String.prototype.toLowerCase` by the ASCII lowercase map `lowerStr`
  (the values dispatched on are ASCII keywords);
* JS option objects are association lists `List (String × JsVal)`; a key
  being present models the property being defined (the TypeScript option
  types constrain `host` to a string and `port` to a number);
* the effectful parts of `connect` / `disconnect` (socket opens, request
  writes, SOCKS negotiation, session connect, destroys) are recorded as a
  trace of `Effect`s, with the outcomes of the external collaborators
  (TCP/TLS transport, proxy response bytes, SOCKS library, SFTP session
  library) supplied by an `Env` oracle.
-/

namespace SFTC

/-- JS regex `\s` restricted to ASCII whitespace (the whitespace bytes that
can occur in an HTTP status line). -/
def isWs (c : Char) : Bool :=
  c = ' ' || c = '\t' || c = '\n' || c = '\r' || c = '\x0b' || c = '\x0c'

/-- `Buffer.from('\r\n\r\n')`, the CONNECT response header terminator
(src/sftp-client.ts:130). -/
def headerEnd : List Char := ['\r', '\n', '\r', '\n']

/-- Does the buffer begin with `\r\n\r\n`? -/
def startsWithTerm : List Char → Bool
  | a :: b :: c :: d :: _ => a = '\r' && b = '\n' && c = '\r' && d = '\n'
  | _ => false

/-- `buf.indexOf(headerEnd)` (src/sftp-client.ts:148): byte index of the
first occurrence of `\r\n\r\n`, `none` when absent. -/
def findTerm : List Char → Option Nat
  | [] => none
  | l@(_ :: t) => if startsWithTerm l then some 0 else (findTerm t).map (· + 1)

/-- The `readHeaders` loop of `SFTPClient.connect` (src/sftp-client.ts:133-198).
Successive `data` events push chunks into `response`; after every chunk the
concatenation is scanned for `\r\n\r\n`; on a hit the promise resolves with
`buf.subarray(0, idx + 4)` and the listeners detach, so the chunks not yet
delivered (second component) are all that remains readable from the socket.
If the chunks run out before a terminator is seen the socket has closed and
the promise rejects (first component `none`). -/
def readHeaders (response : List Char) : List (List Char) → Option (List Char) × List (List Char)
  | [] => (none, [])
  | chunk :: rest =>
    let buf := response ++ chunk
    match findTerm buf with
    | some idx => (some (buf.take (idx + 4)), rest)
    | none => readHeaders buf rest

/-- `headerStr.split(/\r?\n/)[0]` (src/sftp-client.ts:204): everything before
the first `\n`, with a single trailing `\r` dropped when a `\n` was found. -/
def firstLineOf (l : List Char) : List Char :=
  let p := l.takeWhile (fun c => c ≠ '\n')
  if p.length < l.length ∧ p.getLast? = some '\r' then p.dropLast else p

/-- Tail of the status-line scan: does the input start with literal `200`
followed by one `\s`? -/
def starts200ws : List Char → Bool
  | a :: b :: c :: d :: _ => a = '2' && b = '0' && c = '0' && isWs d
  | _ => false

/-- Scanner for `\s*200\s`: skip whitespace until the literal `200` plus one
whitespace appears. -/
def afterVersion2 : List Char → Bool
  | [] => false
  | c :: rest => starts200ws (c :: rest) || (isWs c && afterVersion2 rest)

/-- Scanner for `\s+200\s`: at least one whitespace, then `200` and one more
whitespace. -/
def afterVersion : List Char → Bool
  | [] => false
  | c :: rest => isWs c && afterVersion2 rest

/-- The test `/^HTTP\/\d\.\d\s+200\s/i.test(firstLine)`
(src/sftp-client.ts:206), compiled to an explicit anchored scanner. -/
def statusLineOk : List Char → Bool
  | h :: t1 :: t2 :: p :: s :: d1 :: dot :: d2 :: rest =>
    h.toLower = 'h' && t1.toLower = 't' && t2.toLower = 't' && p.toLower = 'p' &&
    s = '/' && d1.isDigit && dot = '.' && d2.isDigit && afterVersion rest
  | _ => false

/-- The base64 alphabet used by `Buffer.toString('base64')`. -/
def base64Alphabet : List Char :=
  "ABCDEFGHIJKLMNOPQRSTUVWXYZabcdefghijklmnopqrstuvwxyz0123456789+/".data

def b64c (n : Nat) : Char := base64Alphabet.getD n '?'

/-- Base64 of a byte list, with `=` padding. -/
def base64 : List Nat → List Char
  | [] => []
  | [a] => [b64c (a / 4), b64c (a % 4 * 16), '=', '=']
  | [a, b] => [b64c (a / 4), b64c (a % 4 * 16 + b / 16), b64c (b % 16 * 4), '=']
  | a :: b :: c :: rest =>
    b64c (a / 4) :: b64c (a % 4 * 16 + b / 16) :: b64c (b % 16 * 4 + c / 64) ::
      b64c (c % 64) :: base64 rest

/-- UTF-8 bytes of one scalar value (`Buffer.from(string)` encodes UTF-8). -/
def utf8Bytes (c : Char) : List Nat :=
  let n := c.toNat
  if n < 128 then [n]
  else if n < 2048 then [192 + n / 64, 128 + n % 64]
  else if n < 65536 then [224 + n / 4096, 128 + n / 64 % 64, 128 + n % 64]
  else [240 + n / 262144, 128 + n / 4096 % 64, 128 + n / 64 % 64, 128 + n % 64]

def strBytes (s : String) : List Nat := (s.data.map utf8Bytes).flatten

/-- `Buffer.from(s).toString('base64')`. -/
def base64encode (s : String) : String := String.mk (base64 (strBytes s))

/-- JS truthiness of an optional string (`undefined` and `''` are falsy). -/
def truthyStr : Option String → Bool
  | some s => s != ""
  | none => false

/-- The `authHeader` expression (src/sftp-client.ts:104-110): the header text
when both credentials are truthy, the empty string otherwise. -/
def mkAuthHeader (username password : Option String) : String :=
  if truthyStr username && truthyStr password then
    "Proxy-Authorization: Basic " ++ base64encode (username.getD "" ++ ":" ++ password.getD "")
  else ""

/-- The `connectReq` template (src/sftp-client.ts:112-118). -/
def buildConnectReq (destinationHost : String) (destinationPort : Nat)
    (username password : Option String) : String :=
  "CONNECT " ++ destinationHost ++ ":" ++ toString destinationPort ++ " HTTP/1.1\r\n" ++
  "Host: " ++ destinationHost ++ ":" ++ toString destinationPort ++ "\r\n" ++
  (if mkAuthHeader username password ≠ "" then mkAuthHeader username password ++ "\r\n"
   else "") ++
  "Connection: keep-alive\r\n" ++
  "\r\n"

/-- Claim C1 exactly as stated: port `P` defaults to 22 only when the caller
supplies no port, and the `Proxy-Authorization` line appears whenever
username and password are both PRESENT. -/
def claimC1Bytes (H : String) (portOpt : Option Nat) (username password : Option String) : String :=
  "CONNECT " ++ H ++ ":" ++ toString (portOpt.getD 22) ++ " HTTP/1.1\r\n" ++
  "Host: " ++ H ++ ":" ++ toString (portOpt.getD 22) ++ "\r\n" ++
  (if username.isSome && password.isSome then
    "Proxy-Authorization: Basic " ++
      base64encode (username.getD "" ++ ":" ++ password.getD "") ++ "\r\n"
  else "") ++
  "Connection: keep-alive\r\n" ++
  "\r\n"

/-- Claim C1 as amended: `P` is the effective destination port and the
`Proxy-Authorization` line appears exactly when username and password are
both present and non-empty. -/
def amendedC1Bytes (H : String) (P : Nat) (username password : Option String) : String :=
  "CONNECT " ++ H ++ ":" ++ toString P ++ " HTTP/1.1\r\n" ++
  "Host: " ++ H ++ ":" ++ toString P ++ "\r\n" ++
  (if truthyStr username && truthyStr password then
    "Proxy-Authorization: Basic " ++
      base64encode (username.getD "" ++ ":" ++ password.getD "") ++ "\r\n"
  else "") ++
  "Connection: keep-alive\r\n" ++
  "\r\n"

/-- Sanity anchor from the spec (property P2): the Basic-Auth payload for
credentials `user` / `pass`. -/
theorem base64encode_user_pass : base64encode "user:pass" = "dXNlcjpwYXNz" := by decide

/-- ASCII lowercase of one character (`String.prototype.toLowerCase`,
restricted to the basic latin letters that the dispatch keywords use). -/
def lowerStr (s : String) : String := String.mk (s.data.map Char.toLower)

/-- The caller-supplied proxy descriptor (`ProxyOption`). `username`,
`password`, `secure` and `secureRejectUnauthorized` are optional; `none`
models the property being `undefined`. -/
structure ProxyDescriptor where
  enabled : Bool
  type : String
  host : String
  port : Nat
  username : Option String
  password : Option String
  secure : Option Bool
  secureRejectUnauthorized : Option Bool
deriving DecidableEq

/-- A JS value stored in an option bag. -/
inductive JsVal where
  | str (s : String)
  | num (n : Nat)
  | boolV (b : Bool)
  | sockV (id : Nat)
  | proxyVal (p : ProxyDescriptor)
deriving DecidableEq

/-- An option object: an association list of defined properties. -/
abbrev Options := List (String × JsVal)

/-- Property read `o[k]` (`none` models `undefined`). -/
def getOpt (o : Options) (k : String) : Option JsVal :=
  (o.find? fun kv => kv.1 == k).map Prod.snd

/-- `opt.proxy` when it holds a proxy descriptor; any other (or absent)
value is falsy or has no truthy `.enabled`, so `connect` treats it as no
proxy. -/
def getProxy (o : Options) : Option ProxyDescriptor :=
  match getOpt o "proxy" with
  | some (.proxyVal p) => some p
  | _ => none

/-- `String(opt.host)` (src/sftp-client.ts:70). -/
def jsToString : Option JsVal → String
  | some (.str s) => s
  | some (.num n) => toString n
  | some (.boolV b) => if b then "true" else "false"
  | some (.sockV _) => "[object Object]"
  | some (.proxyVal _) => "[object Object]"
  | none => "undefined"

/-- `opt.port ? Number(opt.port) : 22` (src/sftp-client.ts:71): the
TypeScript type of `port` is a number, and the number `0` is falsy. -/
def jsPortOr22 : Option JsVal → Nat
  | some (.num n) => if n = 0 then 22 else n
  | _ => 22

/-- `proxy.secureRejectUnauthorized !== undefined ?
Boolean(proxy.secureRejectUnauthorized) : false`
(src/sftp-client.ts:85-91 and 270-273). -/
def rejectUnauthorizedOf (p : ProxyDescriptor) : Bool :=
  p.secureRejectUnauthorized.getD false

/-- The `authKeys` array (src/sftp-client.ts:227-236). -/
def authKeys : List String :=
  ["username", "password", "privateKey", "passphrase", "agent",
   "readyTimeout", "keepaliveInterval", "keepaliveCountMax"]

/-- JS property assignment `o[k] = v`: update in place when the key exists,
append otherwise. -/
def setKey : Options → String → JsVal → Options
  | [], k, v => [(k, v)]
  | kv :: rest, k, v => if kv.1 == k then (k, v) :: rest else kv :: setKey rest k v

/-- One step of the first merge loop (src/sftp-client.ts:238-241):
`if (opt[k] !== undefined) connectOpts[k] = opt[k]`. -/
def copyAuthKey (opt : Options) (c : Options) (k : String) : Options :=
  match getOpt opt k with
  | some v => setKey c k v
  | none => c

/-- One step of the second merge loop (src/sftp-client.ts:243-248): skip
`host`, `port` and `proxy`, copy any other key not already set. -/
def copyRemainingKey (opt : Options) (c : Options) (k : String) : Options :=
  if k == "host" || k == "port" || k == "proxy" then c
  else
    match getOpt c k with
    | some _ => c
    | none =>
      match getOpt opt k with
      | some v => c ++ [(k, v)]
      | none => c

/-- `connectOpts` construction (src/sftp-client.ts:223-248, identically
319-345 and 380-406): start from `{ sock }`, copy the auth keys, then every
remaining caller key except `host`, `port`, `proxy`. -/
def buildConnectOpts (opt : Options) (sockId : Nat) : Options :=
  let c0 : Options := [("sock", JsVal.sockV sockId)]
  let c1 := authKeys.foldl (copyAuthKey opt) c0
  (opt.map Prod.fst).foldl (copyRemainingKey opt) c1

/-- Observable actions of one `connect` attempt, in program order. Socket
`0` names the socket opened by (or returned to) the attempt. -/
inductive Effect where
  | openTcp (host : String) (port : Nat)
  | openTls (host : String) (port : Nat) (rejectUnauthorized : Bool)
  | writeBytes (sock : Nat) (data : String)
  | socksNegotiate (existingSocket : Option Nat) (proxyHost : String) (proxyPort : Nat)
      (version : Nat) (userId : Option String) (password : Option String)
      (destHost : String) (destPort : Nat)
  | sessionConnect (payload : Options)
  | destroySock (sock : Nat)
deriving DecidableEq

/-- Outcomes of the external collaborators during one `connect` attempt:
`transport` is the `connect` / `secureConnect` wait on the proxy socket,
`headerChunks` are the `data` events carrying the CONNECT response,
`socksResult` is `SocksClient.createConnection` (`ok b` resolves, with `b`
telling whether an `info.socket` was returned; `error` rejects), and
`sessionResult` is `ssh2-sftp-client`'s `connect`. -/
structure Env where
  transport : Except String Unit
  headerChunks : List (List Char)
  socksResult : Except String Bool
  sessionResult : Except String Unit

deriving instance DecidableEq for Except

/-- Result of one `connect` attempt: the effect trace, the final
`this.proxySocket` slot, and the returned / thrown outcome. -/
structure ConnAttempt where
  trace : List Effect
  proxySocket : Option Nat
  result : Except String Unit
deriving DecidableEq

/-- Outcome of the status check on a received CONNECT response header block
(src/sftp-client.ts:200-217). -/
structure RespOutcome where
  ok : Bool
  destroyedBeforeRaise : Bool
  errMsg : Option String
deriving DecidableEq

/-- src/sftp-client.ts:200-217: split off the status line, require
`/^HTTP\/\d\.\d\s+200\s/i`; otherwise destroy the socket (swallowing
destroy errors) and throw an error carrying the raw first line. -/
def handleConnectResponse (proxyHost : String) (proxyPort : Nat) (headerBuf : List Char) :
    RespOutcome :=
  let firstLine := firstLineOf headerBuf
  if statusLineOk firstLine then ⟨true, false, none⟩
  else
    ⟨false, true,
      some ("SFTPClient: HTTP CONNECT failed via proxy " ++ proxyHost ++ ":" ++
        toString proxyPort ++ " -> " ++ String.mk firstLine)⟩

/-- The HTTP/HTTPS CONNECT branch (src/sftp-client.ts:74-253). -/
def httpFlow (opt : Options) (env : Env) (proxyType : String) (proxyHost : String)
    (proxyPort : Nat) (rej : Bool) (username password : Option String)
    (destinationHost : String) (destinationPort : Nat) : ConnAttempt :=
  match env.transport with
  | .error e =>
    ⟨[if proxyType = "https" then .openTls proxyHost proxyPort rej
      else .openTcp proxyHost proxyPort], none, .error e⟩
  | .ok _ =>
    match (readHeaders [] env.headerChunks).1 with
    | none =>
      ⟨[if proxyType = "https" then .openTls proxyHost proxyPort rej
        else .openTcp proxyHost proxyPort,
        .writeBytes 0 (buildConnectReq destinationHost destinationPort username password)],
       none, .error "Proxy socket closed before CONNECT response"⟩
    | some headerBuf =>
      match (handleConnectResponse proxyHost proxyPort headerBuf).errMsg with
      | none =>
        ⟨[if proxyType = "https" then .openTls proxyHost proxyPort rej
          else .openTcp proxyHost proxyPort,
          .writeBytes 0 (buildConnectReq destinationHost destinationPort username password),
          .sessionConnect (buildConnectOpts opt 0)],
         some 0, env.sessionResult⟩
      | some e =>
        ⟨[if proxyType = "https" then .openTls proxyHost proxyPort rej
          else .openTcp proxyHost proxyPort,
          .writeBytes 0 (buildConnectReq destinationHost destinationPort username password),
          .destroySock 0],
         none, .error e⟩

/-- The TLS-wrapped SOCKS branch (src/sftp-client.ts:264-348): TLS to the
proxy first, then SOCKS negotiation over the existing socket; the
collaborator resolves with that same socket. -/
def socksSecureFlow (opt : Options) (env : Env) (ver : Nat) (proxyHost : String)
    (proxyPort : Nat) (rej : Bool) (username password : Option String)
    (destinationHost : String) (destinationPort : Nat) : ConnAttempt :=
  match env.transport with
  | .error e => ⟨[.openTls proxyHost proxyPort rej], none, .error e⟩
  | .ok _ =>
    match env.socksResult with
    | .error e =>
      ⟨[.openTls proxyHost proxyPort rej,
        .socksNegotiate (some 0) proxyHost proxyPort ver username password
          destinationHost destinationPort], none, .error e⟩
    | .ok false =>
      ⟨[.openTls proxyHost proxyPort rej,
        .socksNegotiate (some 0) proxyHost proxyPort ver username password
          destinationHost destinationPort], none,
        .error "SFTPClient: socks.createConnection did not return socket (TLS path)"⟩
    | .ok true =>
      ⟨[.openTls proxyHost proxyPort rej,
        .socksNegotiate (some 0) proxyHost proxyPort ver username password
          destinationHost destinationPort,
        .sessionConnect (buildConnectOpts opt 0)], some 0, env.sessionResult⟩

/-- The plain SOCKS branch (src/sftp-client.ts:349-410): the collaborator
opens its own connection to the proxy and returns the negotiated socket. -/
def socksPlainFlow (opt : Options) (env : Env) (ver : Nat) (proxyHost : String)
    (proxyPort : Nat) (username password : Option String)
    (destinationHost : String) (destinationPort : Nat) : ConnAttempt :=
  match env.socksResult with
  | .error e =>
    ⟨[.socksNegotiate none proxyHost proxyPort ver username password
        destinationHost destinationPort], none, .error e⟩
  | .ok false =>
    ⟨[.socksNegotiate none proxyHost proxyPort ver username password
        destinationHost destinationPort], none,
      .error "SFTPClient: socks.createConnection did not return socket"⟩
  | .ok true =>
    ⟨[.socksNegotiate none proxyHost proxyPort ver username password
        destinationHost destinationPort,
      .sessionConnect (buildConnectOpts opt 0)], some 0, env.sessionResult⟩

/-- The unsupported-type error message (src/sftp-client.ts:258-260). -/
def unsupportedMsg (t : String) : String :=
  "SFTPClient: Unsupported proxy.type \x27" ++ t ++
    "\x27. Supported: socks5, socks4, http, https."

/-- The proxy dispatch inside `connect` (src/sftp-client.ts:62-411), taken
when `opt.proxy` is present and enabled. -/
def proxyFlow (opt : Options) (proxy : ProxyDescriptor) (env : Env) : ConnAttempt :=
  if lowerStr proxy.type = "http" ∨ lowerStr proxy.type = "https" then
    httpFlow opt env (lowerStr proxy.type) proxy.host proxy.port (rejectUnauthorizedOf proxy)
      proxy.username proxy.password (jsToString (getOpt opt "host"))
      (jsPortOr22 (getOpt opt "port"))
  else if lowerStr proxy.type ≠ "socks5" ∧ lowerStr proxy.type ≠ "socks4" then
    ⟨[], none, .error (unsupportedMsg proxy.type)⟩
  else if proxy.secure = some true then
    socksSecureFlow opt env (if lowerStr proxy.type = "socks5" then 5 else 4) proxy.host
      proxy.port (rejectUnauthorizedOf proxy) proxy.username proxy.password
      (jsToString (getOpt opt "host")) (jsPortOr22 (getOpt opt "port"))
  else
    socksPlainFlow opt env (if lowerStr proxy.type = "socks5" then 5 else 4) proxy.host
      proxy.port proxy.username proxy.password (jsToString (getOpt opt "host"))
      (jsPortOr22 (getOpt opt "port"))

/-- The body of `connect` before its catch-all handler
(src/sftp-client.ts:56-415): dispatch on the proxy descriptor, or pass the
caller options through unchanged. -/
def connectBody (opt : Options) (env : Env) : ConnAttempt :=
  match getProxy opt with
  | some proxy =>
    if proxy.enabled then proxyFlow opt proxy env
    else ⟨[.sessionConnect opt], none, env.sessionResult⟩
  | none => ⟨[.sessionConnect opt], none, env.sessionResult⟩

/-- The catch-all handler of `connect` (src/sftp-client.ts:416-436): on any
error destroy `this.proxySocket` when set, clear the slot, and re-throw a
single wrapped connection-failed error. -/
def wrapFailure : ConnAttempt → ConnAttempt
  | ⟨tr, slot, .ok u⟩ => ⟨tr, slot, .ok u⟩
  | ⟨tr, some sid, .error e⟩ =>
    ⟨tr ++ [.destroySock sid], none, .error ("SFTPClient: Connection failed: " ++ e)⟩
  | ⟨tr, none, .error e⟩ => ⟨tr, none, .error ("SFTPClient: Connection failed: " ++ e)⟩

/-- `SFTPClient.connect` (src/sftp-client.ts:56-437): the dispatch body
wrapped in the catch-all cleanup handler. -/
def connect (opt : Options) (env : Env) : ConnAttempt :=
  wrapFailure (connectBody opt env)

/-- The write effects of a trace (what `connect` sent to the proxy socket). -/
def writesOf (tr : List Effect) : List String :=
  tr.filterMap fun e =>
    match e with
    | .writeBytes _ s => some s
    | _ => none

/-- The client state that `disconnect` works on. -/
structure ClientState where
  proxySocket : Option Nat
  sessionUp : Bool
deriving DecidableEq

/-- Observable actions of `disconnect`, in program order. -/
inductive DEffect where
  | endSession
  | destroySock (sock : Nat)
deriving DecidableEq

/-- Outcome of `this.client.end()` supplied by the collaborator. -/
structure DiscEnv where
  endResult : Except String Unit

/-- Modelled from the spec: the SFTP session collaborator's `end` operation
(`ssh2-sftp-client`, not part of this repository). The spec (§4.4, P6)
requires `disconnect` on a never-connected or already-ended client not to
raise, so ending a session that is not up succeeds benignly; ending a live
session has the environment-chosen outcome. -/
def sessionEnd (st : ClientState) (env : DiscEnv) : Except String Unit :=
  if st.sessionUp then env.endResult else .ok ()

/-- `SFTPClient.disconnect` (src/sftp-client.ts:623-640): try to end the
session (wrapping a failure), then in a `finally` destroy the stored proxy
socket and clear the slot, swallowing cleanup errors (per §5 the socket
`destroy` primitive itself never raises). -/
def disconnect (st : ClientState) (env : DiscEnv) :
    ClientState × List DEffect × Except String Unit :=
  let primary : Except String Unit :=
    match sessionEnd st env with
    | .ok _ => .ok ()
    | .error e => .error ("SFTPClient: Disconnect failed: " ++ e)
  match st.proxySocket with
  | some sid => (⟨none, false⟩, [DEffect.endSession, DEffect.destroySock sid], primary)
  | none => (⟨none, false⟩, [DEffect.endSession], primary)

/-! ## Properties of the header reader -/

theorem startsWithTerm_iff (l : List Char) :
    startsWithTerm l = true ↔ ∃ r, l = headerEnd ++ r := by
  rcases l with _ | ⟨a, _ | ⟨b, _ | ⟨c, _ | ⟨d, r⟩⟩⟩⟩ <;>
    simp [startsWithTerm, headerEnd] <;> aesop

theorem startsWithTerm_append {l : List Char} (r : List Char) (h : 4 ≤ l.length) :
    startsWithTerm (l ++ r) = startsWithTerm l := by
  rcases l with _ | ⟨a, _ | ⟨b, _ | ⟨c, _ | ⟨d, t⟩⟩⟩⟩ <;> simp at h ⊢ <;>
    simp [startsWithTerm]

theorem findTerm_bound {l : List Char} {i : Nat} (h : findTerm l = some i) :
    i + 4 ≤ l.length := by
  induction l generalizing i with
  | nil => simp [findTerm] at h
  | cons a t ih =>
    rw [findTerm] at h
    by_cases hs : startsWithTerm (a :: t) = true
    · rw [if_pos hs] at h
      obtain ⟨r, hr⟩ := (startsWithTerm_iff _).mp hs
      obtain rfl : i = 0 := by injection h with h; omega
      have hlen : (a :: t).length = 4 + r.length := by
        rw [hr]
        simp only [List.length_append, headerEnd, List.length_cons, List.length_nil]
      omega
    · rw [if_neg hs] at h
      obtain ⟨j, hj, rfl⟩ := Option.map_eq_some.mp h
      have := ih hj
      simp
      omega

theorem findTerm_append {l : List Char} {i : Nat} (r : List Char) (h : findTerm l = some i) :
    findTerm (l ++ r) = some i := by
  induction l generalizing i with
  | nil => simp [findTerm] at h
  | cons a t ih =>
    have hb := findTerm_bound h
    have hlen : 4 ≤ (a :: t).length := by omega
    rw [findTerm] at h
    have hsw : startsWithTerm (a :: t ++ r) = startsWithTerm (a :: t) :=
      startsWithTerm_append r hlen
    by_cases hs : startsWithTerm (a :: t) = true
    · rw [if_pos hs] at h
      rw [List.cons_append, findTerm, ← List.cons_append, hsw, if_pos hs]
      exact h
    · rw [if_neg hs] at h
      obtain ⟨j, hj, rfl⟩ := Option.map_eq_some.mp h
      rw [List.cons_append, findTerm, ← List.cons_append, hsw, if_neg hs, ih hj]
      rfl

theorem readHeaders_resolves (chunks : List (List Char)) (acc : List Char) (i : Nat)
    (hacc : findTerm acc = none) (h : findTerm (acc ++ chunks.flatten) = some i) :
    (readHeaders acc chunks).1 = some ((acc ++ chunks.flatten).take (i + 4)) := by
  induction chunks generalizing acc with
  | nil =>
    simp at h
    rw [hacc] at h
    exact absurd h (by simp)
  | cons c rest ih =>
    rw [List.flatten_cons, ← List.append_assoc] at h
    rw [readHeaders]
    cases hf : findTerm (acc ++ c) with
    | some j =>
      have hext := findTerm_append rest.flatten hf
      have hij : i = j := by rw [h] at hext; exact Option.some_inj.mp hext
      subst hij
      have hb := findTerm_bound hf
      simp only [List.flatten_cons, ← List.append_assoc]
      rw [List.take_append_of_le_length hb]
    | none =>
      have := ih (acc ++ c) hf h
      simpa [List.flatten_cons, List.append_assoc] using this

/-- C3: for every byte stream containing `\r\n\r\n` and every partition of it
into successive data chunks, the header reader resolves with the prefix of
the stream up to and including the first `\r\n\r\n` — the same result as when
the whole stream arrives as one contiguous chunk, independent of the chunk
boundaries. -/
theorem connect_C3_chunked_header_read (chunks : List (List Char)) (i : Nat)
    (h : findTerm chunks.flatten = some i) :
    (readHeaders [] chunks).1 = some (chunks.flatten.take (i + 4)) ∧
    (readHeaders [] chunks).1 = (readHeaders [] [chunks.flatten]).1 := by
  have h0 : findTerm (([] : List Char) ++ chunks.flatten) = some i := by simpa using h
  have h1 := readHeaders_resolves chunks [] i (by rw [findTerm]) h0
  simp only [List.nil_append] at h1
  refine ⟨h1, ?_⟩
  have h2 : (readHeaders [] [chunks.flatten]).1 = some (chunks.flatten.take (i + 4)) := by
    have := readHeaders_resolves [chunks.flatten] [] i (by rw [findTerm]) (by simpa using h)
    simpa using this
  rw [h1, h2]

/-- Witness for C3: the response header split in three chunks, with one split
inside the `\r\n\r\n` terminator, resolves exactly as the contiguous
delivery. -/
theorem connect_C3_witness :
    findTerm (["HTTP/1.1 200 OK\r".data, "\n\r".data, "\nSSH".data].flatten) = some 15 ∧
    (readHeaders [] ["HTTP/1.1 200 OK\r".data, "\n\r".data, "\nSSH".data]).1 =
      (readHeaders [] [["HTTP/1.1 200 OK\r".data, "\n\r".data, "\nSSH".data].flatten]).1 :=
  ⟨by decide, (connect_C3_chunked_header_read _ 15 (by decide)).2⟩

/-! ## C4: bytes past the header terminator -/

def c4header : List Char := "HTTP/1.1 200 Connection Established\r\n\r\n".data

def c4trailing : List Char := "SSH-2.0-OpenSSH_9.0".data

def c4chunk : List Char := c4header ++ c4trailing

/-- C4 (code bug evaluation): when the data chunk carrying the `\r\n\r\n`
terminator also carries the first bytes of the tunneled SSH stream, the
reader resolves with the header only, and nothing remains deliverable to the
session layer: the code keeps `buf.subarray(0, idx + 4)` and never pushes
`buf.subarray(idx + 4)` back onto the socket, so the trailing bytes are
discarded, not preserved. -/
theorem connect_C4_trailing_bytes_discarded :
    c4chunk = c4header ++ c4trailing ∧ c4trailing ≠ [] ∧
    readHeaders [] [c4chunk] = (some c4header, []) := by
  refine ⟨rfl, by decide, ?_⟩
  decide

/-! ## C2: the status-line acceptance condition -/

theorem starts200ws_iff (l : List Char) :
    starts200ws l = true ↔ ∃ w r, isWs w = true ∧ l = '2' :: '0' :: '0' :: w :: r := by
  rcases l with _ | ⟨a, _ | ⟨b, _ | ⟨c, _ | ⟨d, r⟩⟩⟩⟩ <;> simp [starts200ws] <;> aesop

theorem afterVersion2_iff (l : List Char) :
    afterVersion2 l = true ↔
      ∃ g w r, (∀ c ∈ g, isWs c = true) ∧ isWs w = true ∧
        l = g ++ '2' :: '0' :: '0' :: w :: r := by
  induction l with
  | nil =>
    constructor
    · intro h
      simp [afterVersion2] at h
    · rintro ⟨g, w, r, -, -, hl⟩
      cases g <;> simp at hl
  | cons a t ih =>
    simp only [afterVersion2, Bool.or_eq_true, Bool.and_eq_true]
    constructor
    · rintro (hs | ⟨hwsa, hrec⟩)
      · obtain ⟨w, r, hw, heq⟩ := (starts200ws_iff _).mp hs
        exact ⟨[], w, r, by simp, hw, by simpa using heq⟩
      · obtain ⟨g, w, r, hg, hw, heq⟩ := ih.mp hrec
        refine ⟨a :: g, w, r, ?_, hw, by simp [heq]⟩
        intro c hc
        rcases List.mem_cons.mp hc with rfl | hc
        · exact hwsa
        · exact hg c hc
    · rintro ⟨g, w, r, hg, hw, heq⟩
      cases g with
      | nil =>
        left
        exact (starts200ws_iff _).mpr ⟨w, r, hw, by simpa using heq⟩
      | cons x g2 =>
        right
        rw [List.cons_append] at heq
        injection heq with hax ht
        subst hax
        refine ⟨hg a (by simp), ih.mpr ⟨g2, w, r, ?_, hw, ht⟩⟩
        intro c hc
        exact hg c (by simp [hc])

theorem afterVersion_iff (l : List Char) :
    afterVersion l = true ↔
      ∃ g w r, g ≠ [] ∧ (∀ c ∈ g, isWs c = true) ∧ isWs w = true ∧
        l = g ++ '2' :: '0' :: '0' :: w :: r := by
  cases l with
  | nil =>
    constructor
    · intro h
      simp [afterVersion] at h
    · rintro ⟨g, w, r, -, -, -, hl⟩
      cases g <;> simp at hl
  | cons c rest =>
    simp only [afterVersion, Bool.and_eq_true]
    constructor
    · rintro ⟨hc, h2⟩
      obtain ⟨g, w, r, hg, hw, heq⟩ := (afterVersion2_iff _).mp h2
      refine ⟨c :: g, w, r, by simp, ?_, hw, by simp [heq]⟩
      intro x hx
      rcases List.mem_cons.mp hx with rfl | hx
      · exact hc
      · exact hg x hx
    · rintro ⟨g, w, r, hne, hg, hw, heq⟩
      cases g with
      | nil => exact absurd rfl hne
      | cons x g2 =>
        rw [List.cons_append] at heq
        injection heq with hax ht
        subst hax
        refine ⟨hg c (by simp), (afterVersion2_iff _).mpr ⟨g2, w, r, ?_, hw, ht⟩⟩
        intro y hy
        exact hg y (by simp [hy])

/-- The acceptance condition of claim C2, written from the spec: the line is
an HTTP status line with status code 200 — a case-insensitive `HTTP`
keyword, a slash, single version digits separated by a dot, whitespace, the
code `200`, a whitespace separator, then an arbitrary (possibly empty)
reason phrase. -/
def SpecStatus200 (l : List Char) : Prop :=
  ∃ (h1 h2 h3 h4 d1 d2 : Char) (g : List Char) (w : Char) (reason : List Char),
    h1.toLower = 'h' ∧ h2.toLower = 't' ∧ h3.toLower = 't' ∧ h4.toLower = 'p' ∧
    d1.isDigit = true ∧ d2.isDigit = true ∧ g ≠ [] ∧ (∀ c ∈ g, isWs c = true) ∧
    isWs w = true ∧
    l = h1 :: h2 :: h3 :: h4 :: '/' :: d1 :: '.' :: d2 ::
      (g ++ '2' :: '0' :: '0' :: w :: reason)

theorem statusLineOk_iff_spec (l : List Char) :
    statusLineOk l = true ↔ SpecStatus200 l := by
  constructor
  · intro hb
    rcases l with _ | ⟨a, _ | ⟨b, _ | ⟨c, _ | ⟨d, _ | ⟨e, _ | ⟨f, _ | ⟨a7, _ | ⟨a8, rest⟩⟩⟩⟩⟩⟩⟩⟩ <;>
      simp [statusLineOk, Bool.and_eq_true, decide_eq_true_eq] at hb
    obtain ⟨⟨⟨⟨⟨⟨⟨⟨hh1, hh2⟩, hh3⟩, hh4⟩, hs⟩, hd1⟩, hdot⟩, hd2⟩, hav⟩ := hb
    obtain ⟨g, w, r, hne, hg, hw, heq⟩ := (afterVersion_iff _).mp hav
    subst hs hdot
    exact ⟨a, b, c, d, f, a8, g, w, r, hh1, hh2, hh3, hh4, hd1, hd2, hne, hg, hw, by rw [heq]⟩
  · rintro ⟨h1, h2, h3, h4, d1, d2, g, w, reason, hh1, hh2, hh3, hh4, hd1, hd2, hne, hg, hw, hl⟩
    subst hl
    simp only [statusLineOk, Bool.and_eq_true, decide_eq_true_eq]
    exact ⟨⟨⟨⟨⟨⟨⟨⟨hh1, hh2⟩, hh3⟩, hh4⟩, trivial⟩, hd1⟩, trivial⟩, hd2⟩,
      (afterVersion_iff _).mpr ⟨g, w, reason, hne, hg, hw, rfl⟩⟩

/-- C2: a received CONNECT response header block is accepted exactly when its
first line is an HTTP status line with status code 200 (case-insensitive,
any version digits, any reason phrase); for any other or malformed first
line the proxy socket is destroyed before the error is raised, and the error
carries the raw first line. -/
theorem connect_C2_status_line_check (headerBuf : List Char) (proxyHost : String)
    (proxyPort : Nat) :
    ((handleConnectResponse proxyHost proxyPort headerBuf).ok = true ↔
      SpecStatus200 (firstLineOf headerBuf)) ∧
    ((handleConnectResponse proxyHost proxyPort headerBuf).ok = false →
      (handleConnectResponse proxyHost proxyPort headerBuf).destroyedBeforeRaise = true ∧
      (handleConnectResponse proxyHost proxyPort headerBuf).errMsg =
        some ("SFTPClient: HTTP CONNECT failed via proxy " ++ proxyHost ++ ":" ++
          toString proxyPort ++ " -> " ++ String.mk (firstLineOf headerBuf))) := by
  unfold handleConnectResponse
  by_cases h : statusLineOk (firstLineOf headerBuf) = true
  · simp [h, (statusLineOk_iff_spec _).mp h]
  · have hns : ¬ SpecStatus200 (firstLineOf headerBuf) :=
      fun hs => h ((statusLineOk_iff_spec _).mpr hs)
    simp [h, hns]

/-- Witness for C2: the spec's 407 example is rejected, with the socket
destroyed before the raise and the raw status line carried in the error. -/
theorem connect_C2_witness :
    (handleConnectResponse "proxy.local" 8080
        "HTTP/1.1 407 Proxy Authentication Required\r\n\r\n".data).destroyedBeforeRaise = true ∧
    (handleConnectResponse "proxy.local" 8080
        "HTTP/1.1 407 Proxy Authentication Required\r\n\r\n".data).errMsg =
      some ("SFTPClient: HTTP CONNECT failed via proxy " ++ "proxy.local" ++ ":" ++
        toString 8080 ++ " -> " ++
        String.mk (firstLineOf "HTTP/1.1 407 Proxy Authentication Required\r\n\r\n".data)) :=
  (connect_C2_status_line_check "HTTP/1.1 407 Proxy Authentication Required\r\n\r\n".data
    "proxy.local" 8080).2 (by decide)

/-! ## C7: the merged session payload -/

theorem getOpt_cons (kv : String × JsVal) (o : Options) (k : String) :
    getOpt (kv :: o) k = if kv.1 == k then some kv.2 else getOpt o k := by
  by_cases h : kv.1 == k <;> simp [getOpt, List.find?_cons, h]

theorem getOpt_setKey_self (c : Options) (k : String) (v : JsVal) :
    getOpt (setKey c k v) k = some v := by
  induction c with
  | nil => simp [setKey, getOpt]
  | cons kv rest ih =>
    rw [setKey]
    by_cases h : kv.1 == k
    · rw [if_pos h, getOpt_cons]
      simp
    · rw [if_neg h, getOpt_cons, if_neg h]
      exact ih

theorem getOpt_setKey_other (c : Options) (k k2 : String) (v : JsVal) (hne : k ≠ k2) :
    getOpt (setKey c k v) k2 = getOpt c k2 := by
  induction c with
  | nil => simp [setKey, getOpt, hne]
  | cons kv rest ih =>
    rw [setKey]
    by_cases h : kv.1 == k
    · rw [if_pos h, getOpt_cons, getOpt_cons]
      have hk : kv.1 = k := by simpa using h
      simp [hk, hne]
    · rw [if_neg h, getOpt_cons, getOpt_cons, ih]

theorem getOpt_append_single_other (c : Options) (k k2 : String) (v : JsVal) (hne : k ≠ k2) :
    getOpt (c ++ [(k, v)]) k2 = getOpt c k2 := by
  simp only [getOpt, List.find?_append]
  have h1 : List.find? (fun kv => kv.1 == k2) [(k, v)] = none := by simp [hne]
  rw [h1]
  cases List.find? (fun kv => kv.1 == k2) c <;> rfl

theorem getOpt_append_single_self (c : Options) (k : String) (v : JsVal)
    (h : getOpt c k = none) :
    getOpt (c ++ [(k, v)]) k = some v := by
  have hf : List.find? (fun kv => kv.1 == k) c = none := by
    cases hx : List.find? (fun kv => kv.1 == k) c
    · rfl
    · simp [getOpt, hx] at h
  simp only [getOpt, List.find?_append, hf]
  simp

theorem getOpt_copyAuthKey_other (opt c : Options) (k k2 : String) (hne : k ≠ k2) :
    getOpt (copyAuthKey opt c k) k2 = getOpt c k2 := by
  unfold copyAuthKey
  cases getOpt opt k with
  | none => rfl
  | some v => exact getOpt_setKey_other c k k2 v hne

theorem getOpt_foldl_copyAuthKey (ks : List String) (opt c : Options) (k : String) :
    getOpt (ks.foldl (copyAuthKey opt) c) k =
      if k ∈ ks ∧ (getOpt opt k).isSome then getOpt opt k else getOpt c k := by
  induction ks generalizing c with
  | nil => simp
  | cons k2 ks ih =>
    rw [List.foldl_cons, ih]
    by_cases hk : k2 = k
    · subst hk
      cases ho : getOpt opt k2 with
      | some v =>
        have hstep : getOpt (copyAuthKey opt c k2) k2 = some v := by
          unfold copyAuthKey
          rw [ho]
          exact getOpt_setKey_self c k2 v
        rw [hstep]
        simp [ho]
      | none =>
        have hstep : copyAuthKey opt c k2 = c := by unfold copyAuthKey; rw [ho]
        rw [hstep]
        simp [ho]
    · rw [getOpt_copyAuthKey_other opt c k2 k hk]
      have hmem : (k ∈ k2 :: ks) ↔ (k ∈ ks) := by
        rw [List.mem_cons]
        constructor
        · rintro (rfl | hm)
          · exact absurd rfl hk
          · exact hm
        · exact Or.inr
      simp only [hmem]

theorem getOpt_copyRemainingKey_other (opt c : Options) (k k2 : String) (hne : k ≠ k2) :
    getOpt (copyRemainingKey opt c k) k2 = getOpt c k2 := by
  unfold copyRemainingKey
  by_cases h1 : (k == "host" || k == "port" || k == "proxy") = true
  · rw [if_pos h1]
  · rw [if_neg h1]
    cases getOpt c k with
    | some v => rfl
    | none =>
      cases getOpt opt k with
      | some v => exact getOpt_append_single_other c k k2 v hne
      | none => rfl

theorem getOpt_copyRemainingKey_some (opt c : Options) (k k2 : String) (v : JsVal)
    (h : getOpt c k = some v) :
    getOpt (copyRemainingKey opt c k2) k = some v := by
  by_cases hk : k2 = k
  · subst hk
    unfold copyRemainingKey
    by_cases h1 : (k2 == "host" || k2 == "port" || k2 == "proxy") = true
    · rw [if_pos h1]; exact h
    · rw [if_neg h1, h]
      exact h
  · rw [getOpt_copyRemainingKey_other opt c k2 k hk]
    exact h

theorem getOpt_foldl_copyRemainingKey (ks : List String) (opt c : Options) (k : String) :
    getOpt (ks.foldl (copyRemainingKey opt) c) k =
      match getOpt c k with
      | some v => some v
      | none =>
        if k ∈ ks ∧ ¬(k = "host" ∨ k = "port" ∨ k = "proxy") then getOpt opt k
        else none := by
  induction ks generalizing c with
  | nil => cases h : getOpt c k <;> simp [h]
  | cons k2 ks ih =>
    rw [List.foldl_cons, ih]
    by_cases hk : k2 = k
    · subst hk
      cases hc : getOpt c k2 with
      | some v =>
        rw [getOpt_copyRemainingKey_some opt c k2 k2 v hc]
      | none =>
        by_cases hexcl : k2 = "host" ∨ k2 = "port" ∨ k2 = "proxy"
        · have hstep : copyRemainingKey opt c k2 = c := by
            rcases hexcl with rfl | rfl | rfl <;> rfl
          rw [hstep, hc]
          simp [hexcl]
        · have h1 : k2 ≠ "host" := fun h => hexcl (Or.inl h)
          have h2 : k2 ≠ "port" := fun h => hexcl (Or.inr (Or.inl h))
          have h3 : k2 ≠ "proxy" := fun h => hexcl (Or.inr (Or.inr h))
          have hguard : ¬((k2 == "host" || k2 == "port" || k2 == "proxy") = true) := by
            simp [h1, h2, h3]
          cases ho : getOpt opt k2 with
          | some v =>
            have hstep : copyRemainingKey opt c k2 = c ++ [(k2, v)] := by
              unfold copyRemainingKey
              rw [if_neg hguard, hc, ho]
            rw [hstep, getOpt_append_single_self c k2 v hc]
            simp [hc, hexcl, ho]
          | none =>
            have hstep : copyRemainingKey opt c k2 = c := by
              unfold copyRemainingKey
              rw [if_neg hguard, hc, ho]
            rw [hstep, hc]
            simp [ho]
    · rw [getOpt_copyRemainingKey_other opt c k2 k hk]
      have hmem : (k ∈ k2 :: ks) ↔ (k ∈ ks) := by
        rw [List.mem_cons]
        constructor
        · rintro (rfl | hm)
          · exact absurd rfl hk
          · exact hm
        · exact Or.inr
      cases getOpt c k with
      | some v => rfl
      | none => simp only [hmem]

theorem mem_keys_iff (opt : Options) (k : String) :
    k ∈ opt.map Prod.fst ↔ (getOpt opt k).isSome := by
  induction opt with
  | nil => simp [getOpt]
  | cons kv rest ih =>
    rw [List.map_cons, List.mem_cons, getOpt_cons]
    by_cases h : kv.1 == k
    · have hk : kv.1 = k := by simpa using h
      simp [h, hk]
    · have hk : ¬(k = kv.1) := fun he => by simp [he] at h
      simp [h, hk, ih]

theorem getOpt_c0 (sockId : Nat) (k : String) (hk : k ≠ "sock") :
    getOpt [("sock", JsVal.sockV sockId)] k = none := by
  have h : ("sock" : String) ≠ k := fun h => hk h.symm
  simp [getOpt, h]

theorem getOpt_buildConnectOpts (opt : Options) (sockId : Nat) (k : String) :
    getOpt (buildConnectOpts opt sockId) k =
      if k = "sock" then some (JsVal.sockV sockId)
      else if k = "host" ∨ k = "port" ∨ k = "proxy" then none
      else getOpt opt k := by
  unfold buildConnectOpts
  rw [getOpt_foldl_copyRemainingKey, getOpt_foldl_copyAuthKey]
  by_cases hsock : k = "sock"
  · subst hsock
    have h1 : ¬(("sock" : String) ∈ authKeys ∧ (getOpt opt "sock").isSome) := by
      rintro ⟨hm, -⟩
      simp [authKeys] at hm
    rw [if_neg h1]
    simp [getOpt]
  · rw [if_neg hsock]
    by_cases hexcl : k = "host" ∨ k = "port" ∨ k = "proxy"
    · have hnotauth : k ∉ authKeys := by
        rcases hexcl with rfl | rfl | rfl <;> decide
      have h1 : ¬(k ∈ authKeys ∧ (getOpt opt k).isSome) := fun h => hnotauth h.1
      rw [if_neg h1, getOpt_c0 sockId k hsock]
      simp [hexcl]
    · rw [if_neg hexcl]
      by_cases hauth : k ∈ authKeys ∧ (getOpt opt k).isSome
      · rw [if_pos hauth]
        obtain ⟨v, hv⟩ := Option.isSome_iff_exists.mp hauth.2
        rw [hv]
      · rw [if_neg hauth, getOpt_c0 sockId k hsock]
        cases ho : getOpt opt k with
        | some v =>
          have hkeys : k ∈ opt.map Prod.fst := (mem_keys_iff opt k).mpr (by simp [ho])
          simp [hkeys, hexcl, ho]
        | none =>
          have hkeys : k ∉ opt.map Prod.fst := fun hm => by
            have := (mem_keys_iff opt k).mp hm
            simp [ho] at this
          simp [hkeys, hexcl]

theorem wrapFailure_trace_none (tr : List Effect) (res : Except String Unit) :
    (wrapFailure ⟨tr, none, res⟩).trace = tr := by
  cases res <;> rfl

theorem sessionConnect_mem_wrapFailure (a : ConnAttempt) (pl : Options) :
    Effect.sessionConnect pl ∈ (wrapFailure a).trace ↔
      Effect.sessionConnect pl ∈ a.trace := by
  obtain ⟨tr, slot, res⟩ := a
  cases res <;> cases slot <;> simp [wrapFailure]

theorem sessionConnect_mem_proxyFlow (opt : Options) (p : ProxyDescriptor) (env : Env)
    (pl : Options)
    (hmem : Effect.sessionConnect pl ∈ (proxyFlow opt p env).trace) :
    pl = buildConnectOpts opt 0 := by
  unfold proxyFlow at hmem
  by_cases h1 : lowerStr p.type = "http" ∨ lowerStr p.type = "https"
  · rw [if_pos h1] at hmem
    unfold httpFlow at hmem
    by_cases hhs : lowerStr p.type = "https"
    · rw [if_pos hhs] at hmem
      split at hmem
      · simp at hmem
      · split at hmem
        · simp at hmem
        · split at hmem
          · simp at hmem
            exact hmem
          · simp at hmem
    · rw [if_neg hhs] at hmem
      split at hmem
      · simp at hmem
      · split at hmem
        · simp at hmem
        · split at hmem
          · simp at hmem
            exact hmem
          · simp at hmem
  · rw [if_neg h1] at hmem
    by_cases h2 : lowerStr p.type ≠ "socks5" ∧ lowerStr p.type ≠ "socks4"
    · rw [if_pos h2] at hmem
      simp at hmem
    · rw [if_neg h2] at hmem
      by_cases h3 : p.secure = some true
      · rw [if_pos h3] at hmem
        unfold socksSecureFlow at hmem
        split at hmem
        · simp at hmem
        · split at hmem
          · simp at hmem
          · simp at hmem
          · simp at hmem
            exact hmem
      · rw [if_neg h3] at hmem
        unfold socksPlainFlow at hmem
        split at hmem
        · simp at hmem
        · simp at hmem
        · simp at hmem
          exact hmem

/-- C7: whenever a tunnel socket is handed to the session layer, the merged
payload binds `sock` to that socket, never contains the `host`, `port` or
`proxy` keys, and carries every other caller-supplied key with its value
unchanged; with no enabled proxy, `connect` forwards the caller options to
the session layer unchanged; on every enabled-proxy run each payload passed
to the session layer IS the merged payload `buildConnectOpts opt 0` (never
the raw caller options); and whenever a tunnel is established — the http
CONNECT path with a 200 response, or a SOCKS path whose negotiation yields
a socket — that merged payload is in fact passed to the session layer. -/
theorem connect_C7_session_payload (opt : Options) (env : Env) (sockId : Nat) :
    getOpt (buildConnectOpts opt sockId) "sock" = some (JsVal.sockV sockId) ∧
    getOpt (buildConnectOpts opt sockId) "host" = none ∧
    getOpt (buildConnectOpts opt sockId) "port" = none ∧
    getOpt (buildConnectOpts opt sockId) "proxy" = none ∧
    (∀ k, k ≠ "host" → k ≠ "port" → k ≠ "proxy" → k ≠ "sock" →
      getOpt (buildConnectOpts opt sockId) k = getOpt opt k) ∧
    ((getProxy opt = none ∨ ∃ p, getProxy opt = some p ∧ p.enabled = false) →
      (connect opt env).trace = [Effect.sessionConnect opt]) ∧
    (∀ p, getProxy opt = some p → p.enabled = true →
      ∀ pl, Effect.sessionConnect pl ∈ (connect opt env).trace →
        pl = buildConnectOpts opt 0) ∧
    (∀ p, getProxy opt = some p → p.enabled = true →
      (lowerStr p.type = "http" ∨ lowerStr p.type = "https") →
      env.transport = Except.ok () →
      ∀ hb, (readHeaders [] env.headerChunks).1 = some hb →
        statusLineOk (firstLineOf hb) = true →
        Effect.sessionConnect (buildConnectOpts opt 0) ∈ (connect opt env).trace) ∧
    (∀ p, getProxy opt = some p → p.enabled = true →
      (lowerStr p.type = "socks5" ∨ lowerStr p.type = "socks4") →
      env.socksResult = Except.ok true →
      (p.secure = some true → env.transport = Except.ok ()) →
      Effect.sessionConnect (buildConnectOpts opt 0) ∈ (connect opt env).trace) := by
  refine ⟨?_, ?_, ?_, ?_, ?_, ?_, ?_, ?_, ?_⟩
  · rw [getOpt_buildConnectOpts, if_pos rfl]
  · rw [getOpt_buildConnectOpts, if_neg (by decide), if_pos (Or.inl rfl)]
  · rw [getOpt_buildConnectOpts, if_neg (by decide), if_pos (Or.inr (Or.inl rfl))]
  · rw [getOpt_buildConnectOpts, if_neg (by decide), if_pos (Or.inr (Or.inr rfl))]
  · intro k h1 h2 h3 h4
    rw [getOpt_buildConnectOpts, if_neg h4,
      if_neg (fun h => Or.elim h h1 (fun hh => Or.elim hh h2 h3))]
  · rintro (hnone | ⟨p, hp, hen⟩)
    · have hbody : connectBody opt env = ⟨[Effect.sessionConnect opt], none, env.sessionResult⟩ := by
        unfold connectBody
        rw [hnone]
      rw [connect, hbody, wrapFailure_trace_none]
    · have hbody : connectBody opt env = ⟨[Effect.sessionConnect opt], none, env.sessionResult⟩ := by
        unfold connectBody
        simp [hp, hen]
      rw [connect, hbody, wrapFailure_trace_none]
  · intro p hp hen pl hmem
    rw [connect, sessionConnect_mem_wrapFailure] at hmem
    unfold connectBody at hmem
    simp only [hp] at hmem
    rw [if_pos hen] at hmem
    exact sessionConnect_mem_proxyFlow opt p env pl hmem
  · intro p hp hen hty htr hb hrd hok
    have hresp : (handleConnectResponse p.host p.port hb).errMsg = none := by
      simp [handleConnectResponse, hok]
    rw [connect, sessionConnect_mem_wrapFailure]
    unfold connectBody
    simp only [hp]
    rw [if_pos hen]
    unfold proxyFlow
    rw [if_pos hty]
    unfold httpFlow
    repeat' split
    all_goals simp_all
  · intro p hp hen hty hsr htr
    rw [connect, sessionConnect_mem_wrapFailure]
    unfold connectBody
    simp only [hp]
    rw [if_pos hen]
    unfold proxyFlow
    have hne1 : ¬(lowerStr p.type = "http" ∨ lowerStr p.type = "https") := by
      rcases hty with h | h <;> rw [h] <;> decide
    have hne2 : ¬(lowerStr p.type ≠ "socks5" ∧ lowerStr p.type ≠ "socks4") := by
      rcases hty with h | h <;> rw [h] <;> decide
    rw [if_neg hne1, if_neg hne2]
    by_cases hsec : p.secure = some true
    · rw [if_pos hsec]
      have htr2 := htr hsec
      unfold socksSecureFlow
      repeat' split
      all_goals simp_all
    · rw [if_neg hsec]
      unfold socksPlainFlow
      repeat' split
      all_goals simp_all

def pC7 : ProxyDescriptor :=
  { enabled := false, type := "socks5", host := "proxy.local", port := 1080,
    username := some "pu", password := some "pp", secure := none,
    secureRejectUnauthorized := none }

def optC7 : Options :=
  [("host", JsVal.str "sftp.example.com"), ("port", JsVal.num 22),
   ("username", JsVal.str "u"), ("password", JsVal.str "pw"),
   ("readyTimeout", JsVal.num 20000), ("debug", JsVal.str "off"),
   ("proxy", JsVal.proxyVal pC7)]

def envC7 : Env :=
  { transport := .ok (), headerChunks := [], socksResult := .ok true,
    sessionResult := .ok () }

def pC7T : ProxyDescriptor :=
  { enabled := true, type := "http", host := "p.local", port := 8080,
    username := some "user", password := some "pass", secure := none,
    secureRejectUnauthorized := none }

def optC7T : Options :=
  [("host", JsVal.str "sftp.example.com"), ("port", JsVal.num 22),
   ("username", JsVal.str "u"), ("password", JsVal.str "pw"),
   ("debug", JsVal.str "off"), ("proxy", JsVal.proxyVal pC7T)]

def envC7T : Env :=
  { transport := .ok (),
    headerChunks := ["HTTP/1.1 200 Connection Established\r\n\r\n".data],
    socksResult := .ok true, sessionResult := .ok () }

/-- Witness for C7: an actual tunnel run — an enabled http proxy answering
200 — passes exactly the merged payload (sock bound, no `host`/`port`/
`proxy`, other keys unchanged) to the session layer; and a disabled-proxy
run forwards the caller options unchanged. -/
theorem connect_C7_witness :
    Effect.sessionConnect (buildConnectOpts optC7T 0) ∈ (connect optC7T envC7T).trace ∧
    (∀ pl, Effect.sessionConnect pl ∈ (connect optC7T envC7T).trace →
      pl = buildConnectOpts optC7T 0) ∧
    getOpt (buildConnectOpts optC7T 0) "sock" = some (JsVal.sockV 0) ∧
    getOpt (buildConnectOpts optC7T 0) "host" = none ∧
    getOpt (buildConnectOpts optC7T 0) "port" = none ∧
    getOpt (buildConnectOpts optC7T 0) "proxy" = none ∧
    getOpt (buildConnectOpts optC7T 0) "debug" = getOpt optC7T "debug" ∧
    (connect optC7 envC7).trace = [Effect.sessionConnect optC7] := by
  have h := connect_C7_session_payload optC7T envC7T 0
  have h2 := connect_C7_session_payload optC7 envC7 3
  refine ⟨?_, h.2.2.2.2.2.2.1 pC7T rfl rfl, h.1, h.2.1, h.2.2.1, h.2.2.2.1, ?_, ?_⟩
  · exact h.2.2.2.2.2.2.2.1 pC7T rfl rfl (Or.inl (by decide)) rfl
      ("HTTP/1.1 200 Connection Established\r\n\r\n".data) (by decide) (by decide)
  · exact h.2.2.2.2.1 "debug" (by decide) (by decide) (by decide) (by decide)
  · exact h2.2.2.2.2.2.1 (Or.inr ⟨pC7, rfl, rfl⟩)

/-! ## C6: unsupported proxy type -/

/-- C6: with an enabled proxy whose (lowercased, per the dispatch of C10)
type is outside {socks4, socks5, http, https}, `connect` fails with the
unsupported-type error naming the offending value, with an empty effect
trace — in particular before any socket is opened. -/
theorem connect_C6_unsupported_type (opt : Options) (env : Env) (p : ProxyDescriptor)
    (hp : getProxy opt = some p) (hen : p.enabled = true)
    (h1 : lowerStr p.type ≠ "http") (h2 : lowerStr p.type ≠ "https")
    (h3 : lowerStr p.type ≠ "socks5") (h4 : lowerStr p.type ≠ "socks4") :
    connect opt env =
      ⟨[], none, .error ("SFTPClient: Connection failed: " ++ unsupportedMsg p.type)⟩ := by
  have hbody : connectBody opt env = ⟨[], none, .error (unsupportedMsg p.type)⟩ := by
    unfold connectBody proxyFlow
    simp [hp, hen, h1, h2, h3, h4]
  rw [connect, hbody]
  rfl

def pC6 : ProxyDescriptor :=
  { enabled := true, type := "ftp", host := "proxy.local", port := 3128,
    username := none, password := none, secure := none, secureRejectUnauthorized := none }

def optC6 : Options := [("host", JsVal.str "h"), ("proxy", JsVal.proxyVal pC6)]

def envC6 : Env :=
  { transport := .ok (), headerChunks := [], socksResult := .ok true, sessionResult := .ok () }

/-- Witness for C6: proxy type `ftp` is rejected before any effect. -/
theorem connect_C6_witness :
    connect optC6 envC6 =
      ⟨[], none, .error ("SFTPClient: Connection failed: " ++ unsupportedMsg pC6.type)⟩ :=
  connect_C6_unsupported_type optC6 envC6 pC6 rfl rfl (by decide) (by decide) (by decide)
    (by decide)

/-! ## C8: certificate validation on TLS hops to the proxy -/

theorem openTls_mem_wrapFailure (a : ConnAttempt) (h : String) (po : Nat) (b : Bool) :
    Effect.openTls h po b ∈ (wrapFailure a).trace ↔ Effect.openTls h po b ∈ a.trace := by
  obtain ⟨tr, slot, res⟩ := a
  cases res <;> cases slot <;> simp [wrapFailure]

theorem openTls_mem_proxyFlow (opt : Options) (p : ProxyDescriptor) (env : Env)
    (h : String) (po : Nat) (b : Bool)
    (hmem : Effect.openTls h po b ∈ (proxyFlow opt p env).trace) :
    b = rejectUnauthorizedOf p := by
  unfold proxyFlow httpFlow socksSecureFlow socksPlainFlow at hmem
  repeat' split at hmem
  all_goals simp_all

/-- C8: every TLS connection `connect` opens to the proxy — the https
CONNECT hop as well as the TLS-wrapped SOCKS hop — carries
`rejectUnauthorized = Boolean(proxy.secureRejectUnauthorized)` when that
field is defined and `false` (permissive) when it is undefined; and on those
two paths such a TLS hop to the proxy is indeed opened. -/
theorem connect_C8_tls_reject_unauthorized (opt : Options) (env : Env) (p : ProxyDescriptor)
    (hp : getProxy opt = some p) (hen : p.enabled = true) :
    (∀ h po b, Effect.openTls h po b ∈ (connect opt env).trace →
      b = p.secureRejectUnauthorized.getD false) ∧
    ((lowerStr p.type = "https" ∨
      ((lowerStr p.type = "socks5" ∨ lowerStr p.type = "socks4") ∧ p.secure = some true)) →
      Effect.openTls p.host p.port (p.secureRejectUnauthorized.getD false) ∈
        (connect opt env).trace) := by
  constructor
  · intro h po b hmem
    rw [connect, openTls_mem_wrapFailure] at hmem
    unfold connectBody at hmem
    simp only [hp] at hmem
    rw [if_pos hen] at hmem
    exact openTls_mem_proxyFlow opt p env h po b hmem
  · intro hcase
    rw [connect, openTls_mem_wrapFailure]
    unfold connectBody
    simp only [hp]
    rw [if_pos hen]
    rcases hcase with hhttps | ⟨hsocks, hsec⟩
    · unfold proxyFlow
      rw [if_pos (Or.inr hhttps)]
      unfold httpFlow
      repeat' split
      all_goals simp_all [rejectUnauthorizedOf]
    · unfold proxyFlow
      have hne1 : ¬(lowerStr p.type = "http" ∨ lowerStr p.type = "https") := by
        rcases hsocks with h | h <;> rw [h] <;> decide
      have hne2 : ¬(lowerStr p.type ≠ "socks5" ∧ lowerStr p.type ≠ "socks4") := by
        rcases hsocks with h | h <;> rw [h] <;> decide
      rw [if_neg hne1, if_neg hne2, if_pos hsec]
      unfold socksSecureFlow
      repeat' split
      all_goals simp [rejectUnauthorizedOf]

def pC8 : ProxyDescriptor :=
  { enabled := true, type := "https", host := "tlsproxy.local", port := 8443,
    username := none, password := none, secure := none,
    secureRejectUnauthorized := some true }

def optC8 : Options := [("host", JsVal.str "dest"), ("proxy", JsVal.proxyVal pC8)]

def envC8 : Env :=
  { transport := .ok (), headerChunks := [], socksResult := .ok true, sessionResult := .ok () }

/-- Witness for C8: an https proxy hop with `secureRejectUnauthorized: true`
opens its TLS connection with `rejectUnauthorized = true`. -/
theorem connect_C8_witness :
    Effect.openTls "tlsproxy.local" 8443 true ∈ (connect optC8 envC8).trace :=
  (connect_C8_tls_reject_unauthorized optC8 envC8 pC8 rfl rfl).2 (Or.inl (by decide))

/-! ## C10: case-insensitive dispatch on the proxy type -/

theorem httpFlow_trace_ne_nil (opt : Options) (env : Env) (proxyType proxyHost : String)
    (proxyPort : Nat) (rej : Bool) (username password : Option String)
    (destinationHost : String) (destinationPort : Nat) :
    (httpFlow opt env proxyType proxyHost proxyPort rej username password
      destinationHost destinationPort).trace ≠ [] := by
  unfold httpFlow
  repeat' split
  all_goals simp

theorem socksSecureFlow_trace_ne_nil (opt : Options) (env : Env) (ver : Nat)
    (proxyHost : String) (proxyPort : Nat) (rej : Bool) (username password : Option String)
    (destinationHost : String) (destinationPort : Nat) :
    (socksSecureFlow opt env ver proxyHost proxyPort rej username password
      destinationHost destinationPort).trace ≠ [] := by
  unfold socksSecureFlow
  repeat' split
  all_goals simp

theorem socksPlainFlow_trace_ne_nil (opt : Options) (env : Env) (ver : Nat)
    (proxyHost : String) (proxyPort : Nat) (username password : Option String)
    (destinationHost : String) (destinationPort : Nat) :
    (socksPlainFlow opt env ver proxyHost proxyPort username password
      destinationHost destinationPort).trace ≠ [] := by
  unfold socksPlainFlow
  repeat' split
  all_goals simp

/-- C10: the dispatch decision is taken on the lowercased `proxy.type`: for
a type whose lowercase form is supported, the whole proxy flow is the one of
the lowercase form (case variants such as `HTTP` or `SOCKS5` select the same
builder rather than being rejected), and the flow is the unsupported-type
failure exactly when the lowercase form lies outside
{socks4, socks5, http, https}. -/
theorem connect_C10_lowercase_dispatch (opt : Options) (p : ProxyDescriptor) (env : Env) :
    ((lowerStr p.type = "http" ∨ lowerStr p.type = "https" ∨
      lowerStr p.type = "socks4" ∨ lowerStr p.type = "socks5") →
      proxyFlow opt p env = proxyFlow opt { p with type := lowerStr p.type } env) ∧
    (proxyFlow opt p env = ⟨[], none, .error (unsupportedMsg p.type)⟩ ↔
      (lowerStr p.type ≠ "http" ∧ lowerStr p.type ≠ "https" ∧
       lowerStr p.type ≠ "socks4" ∧ lowerStr p.type ≠ "socks5")) := by
  constructor
  · intro hL
    rcases hL with h | h | h | h <;>
      simp [proxyFlow, rejectUnauthorizedOf, h, show lowerStr "http" = "http" from by decide,
        show lowerStr "https" = "https" from by decide,
        show lowerStr "socks4" = "socks4" from by decide,
        show lowerStr "socks5" = "socks5" from by decide]
  · constructor
    · intro heq
      refine ⟨?_, ?_, ?_, ?_⟩ <;> intro hL
      · rw [proxyFlow, if_pos (Or.inl hL)] at heq
        exact httpFlow_trace_ne_nil opt env _ _ _ _ _ _ _ _ (congrArg ConnAttempt.trace heq)
      · rw [proxyFlow, if_pos (Or.inr hL)] at heq
        exact httpFlow_trace_ne_nil opt env _ _ _ _ _ _ _ _ (congrArg ConnAttempt.trace heq)
      · rw [proxyFlow, if_neg (by rw [hL]; decide), if_neg (by rw [hL]; decide)] at heq
        by_cases hsec : p.secure = some true
        · rw [if_pos hsec] at heq
          exact socksSecureFlow_trace_ne_nil opt env _ _ _ _ _ _ _ _
            (congrArg ConnAttempt.trace heq)
        · rw [if_neg hsec] at heq
          exact socksPlainFlow_trace_ne_nil opt env _ _ _ _ _ _ _
            (congrArg ConnAttempt.trace heq)
      · rw [proxyFlow, if_neg (by rw [hL]; decide), if_neg (by rw [hL]; decide)] at heq
        by_cases hsec : p.secure = some true
        · rw [if_pos hsec] at heq
          exact socksSecureFlow_trace_ne_nil opt env _ _ _ _ _ _ _ _
            (congrArg ConnAttempt.trace heq)
        · rw [if_neg hsec] at heq
          exact socksPlainFlow_trace_ne_nil opt env _ _ _ _ _ _ _
            (congrArg ConnAttempt.trace heq)
    · rintro ⟨h1, h2, h3, h4⟩
      rw [proxyFlow, if_neg (fun h => Or.elim h h1 h2), if_pos ⟨h4, h3⟩]

def pC10 : ProxyDescriptor :=
  { enabled := true, type := "SOCKS5", host := "proxy.local", port := 1080,
    username := none, password := none, secure := none, secureRejectUnauthorized := none }

def optC10 : Options := [("host", JsVal.str "dest")]

def envC10 : Env :=
  { transport := .ok (), headerChunks := [], socksResult := .ok true, sessionResult := .ok () }

/-- Witness for C10: the case variant `SOCKS5` behaves exactly like `socks5`
and is not rejected as unsupported. -/
theorem connect_C10_witness :
    proxyFlow optC10 pC10 envC10 =
      proxyFlow optC10 { pC10 with type := lowerStr pC10.type } envC10 ∧
    proxyFlow optC10 pC10 envC10 ≠ ⟨[], none, .error (unsupportedMsg pC10.type)⟩ :=
  ⟨(connect_C10_lowercase_dispatch optC10 pC10 envC10).1 (by right; right; right; decide),
   fun h => ((connect_C10_lowercase_dispatch optC10 pC10 envC10).2.mp h).2.2.2 (by decide)⟩

/-! ## C9: disconnect -/

/-- C9: `disconnect` always attempts to end the session first; whatever that
returns, the stored proxy socket (if any) is destroyed and the slot cleared,
and the cleanup never alters the end outcome; on a client with no connection
and no tunnel it returns successfully with the state unchanged; and a second
`disconnect` in a row never raises. -/
theorem disconnect_C9_cleanup (st : ClientState) (env : DiscEnv) :
    ((disconnect st env).2.1.head? = some DEffect.endSession) ∧
    ((disconnect st env).1.proxySocket = none) ∧
    (∀ sid, st.proxySocket = some sid → DEffect.destroySock sid ∈ (disconnect st env).2.1) ∧
    ((disconnect st env).2.2 =
      match sessionEnd st env with
      | .ok _ => Except.ok ()
      | .error e => Except.error ("SFTPClient: Disconnect failed: " ++ e)) ∧
    (st = ⟨none, false⟩ →
      disconnect st env = (⟨none, false⟩, [DEffect.endSession], Except.ok ())) ∧
    (∀ env2, (disconnect (disconnect st env).1 env2).2.2 = Except.ok ()) := by
  obtain ⟨sl, up⟩ := st
  refine ⟨?_, ?_, ?_, ?_, ?_, ?_⟩
  · cases sl <;> simp [disconnect]
  · cases sl <;> simp [disconnect]
  · intro sid hsid
    simp only at hsid
    cases sl with
    | none => simp at hsid
    | some s =>
      obtain rfl : s = sid := by simpa using hsid
      simp [disconnect]
  · cases sl <;> simp [disconnect]
  · intro hfresh
    obtain ⟨rfl, rfl⟩ : sl = none ∧ up = false := by
      have h1 := congrArg ClientState.proxySocket hfresh
      have h2 := congrArg ClientState.sessionUp hfresh
      exact ⟨h1, h2⟩
    simp [disconnect, sessionEnd]
  · intro env2
    cases sl <;> simp [disconnect, sessionEnd]

/-- Witness for C9: a connected client with a stored tunnel socket and a
failing session end still destroys the socket, and a second disconnect does
not raise. -/
theorem disconnect_C9_witness :
    DEffect.destroySock 7 ∈
      (disconnect ⟨some 7, true⟩ ⟨Except.error "boom"⟩).2.1 ∧
    (disconnect (disconnect ⟨some 7, true⟩ ⟨Except.error "boom"⟩).1
      ⟨Except.error "later"⟩).2.2 = Except.ok () :=
  ⟨(disconnect_C9_cleanup ⟨some 7, true⟩ ⟨Except.error "boom"⟩).2.2.1 7 rfl,
   (disconnect_C9_cleanup ⟨some 7, true⟩ ⟨Except.error "boom"⟩).2.2.2.2.2 ⟨Except.error "later"⟩⟩

/-! ## C1: the CONNECT request bytes -/

theorem writesOf_wrapFailure (a : ConnAttempt) :
    writesOf (wrapFailure a).trace = writesOf a.trace := by
  obtain ⟨tr, slot, res⟩ := a
  cases res <;> cases slot <;> simp [wrapFailure, writesOf]

theorem mkAuthHeader_truthy_ne_empty (username password : Option String)
    (hc : (truthyStr username && truthyStr password) = true) :
    mkAuthHeader username password ≠ "" := by
  rw [mkAuthHeader, if_pos hc]
  intro h
  have hd := congrArg String.data h
  rw [String.data_append] at hd
  rw [List.append_eq_nil] at hd
  exact absurd hd.1 (by decide)

theorem buildConnectReq_eq_amended (H : String) (P : Nat) (username password : Option String) :
    buildConnectReq H P username password = amendedC1Bytes H P username password := by
  unfold buildConnectReq amendedC1Bytes
  by_cases hc : (truthyStr username && truthyStr password) = true
  · rw [if_pos (mkAuthHeader_truthy_ne_empty username password hc), if_pos hc,
      mkAuthHeader, if_pos hc]
  · have hah : mkAuthHeader username password = "" := by rw [mkAuthHeader, if_neg hc]
    rw [hah, if_neg (fun h => h rfl), if_neg hc]

/-- C1 as amended: with an enabled http/https proxy and a confirmed proxy
transport, `connect` writes to the proxy socket exactly one byte string —
`CONNECT H:P HTTP/1.1\r\nHost: H:P\r\nProxy-Authorization: Basic
base64(user:pass)\r\nConnection: keep-alive\r\n\r\n`, where `P` is the
caller port when supplied and nonzero and `22` otherwise, and where the
`Proxy-Authorization` line is present exactly when the proxy username and
password are both present and non-empty (and omitted, all other bytes
unchanged, otherwise). -/
theorem connect_C1_connect_request (opt : Options) (env : Env) (p : ProxyDescriptor)
    (H : String) (hp : getProxy opt = some p) (hen : p.enabled = true)
    (hty : lowerStr p.type = "http" ∨ lowerStr p.type = "https")
    (htr : env.transport = .ok ())
    (hh : getOpt opt "host" = some (JsVal.str H)) :
    writesOf (connect opt env).trace =
      [amendedC1Bytes H (jsPortOr22 (getOpt opt "port")) p.username p.password] := by
  have hH : jsToString (getOpt opt "host") = H := by rw [hh]; rfl
  rw [connect, writesOf_wrapFailure]
  unfold connectBody
  simp only [hp]
  rw [if_pos hen]
  unfold proxyFlow
  rw [if_pos hty]
  unfold httpFlow
  simp only [htr]
  repeat' split
  all_goals simp [writesOf, hH, buildConnectReq_eq_amended]

def pC1 : ProxyDescriptor :=
  { enabled := true, type := "http", host := "p.local", port := 8080,
    username := some "", password := some "pass", secure := none,
    secureRejectUnauthorized := none }

def optC1 : Options :=
  [("host", JsVal.str "example.org"), ("port", JsVal.num 0),
   ("proxy", JsVal.proxyVal pC1)]

def envC1 : Env :=
  { transport := .ok (), headerChunks := [], socksResult := .ok true, sessionResult := .ok () }

/-- Counterexample to C1 as stated: the caller supplies port `0` and a
present-but-empty proxy username; the claim's byte string (port taken as
supplied, `Proxy-Authorization` present because both credentials are
present) differs from what `connect` actually writes (port falls back to 22,
no `Proxy-Authorization` line, because JS truthiness treats `0` and the
empty string as absent). -/
theorem connect_C1_counterexample :
    writesOf (connect optC1 envC1).trace =
      [buildConnectReq "example.org" 22 (some "") (some "pass")] ∧
    writesOf (connect optC1 envC1).trace ≠
      [claimC1Bytes "example.org" (some 0) (some "") (some "pass")] := by
  constructor
  · decide
  · decide

def pC1W : ProxyDescriptor :=
  { enabled := true, type := "http", host := "p.local", port := 8080,
    username := some "user", password := some "pass", secure := none,
    secureRejectUnauthorized := none }

def optC1W : Options :=
  [("host", JsVal.str "example.org"), ("port", JsVal.num 2222),
   ("proxy", JsVal.proxyVal pC1W)]

/-- Witness for the amended C1 at the spec's own example: destination
`example.org`, credentials `user` / `pass`. -/
theorem connect_C1_witness :
    writesOf (connect optC1W envC1).trace =
      [amendedC1Bytes "example.org" 2222 (some "user") (some "pass")] :=
  connect_C1_connect_request optC1W envC1 pC1W "example.org" rfl rfl (Or.inl (by decide))
    rfl rfl

/-! ## C5: socket cleanup on a failed connect -/

def pC5 : ProxyDescriptor :=
  { enabled := true, type := "socks5", host := "proxy.local", port := 1080,
    username := some "pu", password := some "pp", secure := some true,
    secureRejectUnauthorized := none }

def optC5 : Options :=
  [("host", JsVal.str "sftp.example.com"), ("port", JsVal.num 22),
   ("username", JsVal.str "u"), ("proxy", JsVal.proxyVal pC5)]

def envC5 : Env :=
  { transport := .ok (), headerChunks := [],
    socksResult := .error "Socks5 proxy rejected connection - AuthFailed",
    sessionResult := .ok () }

/-- C5 (code bug evaluation): on the TLS-wrapped SOCKS path, when the SOCKS
negotiation fails after the TLS socket to the proxy was opened, `connect`
re-raises a single wrapped error and leaves the slot empty, but no destroy
is ever issued for the opened TLS socket — the catch block only destroys
`this.proxySocket`, which is still unset at that point
(src/sftp-client.ts:277, 416-426). -/
theorem connect_C5_tls_socket_leak :
    connect optC5 envC5 =
      ⟨[Effect.openTls "proxy.local" 1080 false,
        Effect.socksNegotiate (some 0) "proxy.local" 1080 5 (some "pu") (some "pp")
          "sftp.example.com" 22],
       none,
       .error "SFTPClient: Connection failed: Socks5 proxy rejected connection - AuthFailed"⟩ ∧
    (∀ e ∈ (connect optC5 envC5).trace, ∀ s, e ≠ Effect.destroySock s) := by
  constructor
  · decide
  · rintro e he s
    rw [(by decide :
      (connect optC5 envC5).trace =
        [Effect.openTls "proxy.local" 1080 false,
         Effect.socksNegotiate (some 0) "proxy.local" 1080 5 (some "pu") (some "pp")
           "sftp.example.com" 22])] at he
    rcases List.mem_cons.mp he with rfl | he2
    · simp
    · rcases List.mem_cons.mp he2 with rfl | he3
      · simp
      · simp at he3

end SFTC
